import Mathlib

/-!
# Verification of the argue_web reputation/interaction engine

Shallow embedding of the core of `src/app.py` (a Flask discussion-forum
backend): the user-score recomputation algorithm (`UserModel.update_score`),
the post/comment like/dislike/favorite state machine (`post_interaction`,
`comment_interaction`), and the two faction paths (`choose_faction` and the
`join_faction` action), together with theorems checking the natural-language
specification against this code.

Modelling conventions:
* Python floats are modelled as exact rationals `ℚ`; the claims under study
  are about the algebraic structure of the score algorithm, and both sides of
  every comparison are embedded over the same arithmetic.
* Database rows are Lean structures; the per-(actor, target) slice of the
  database that one request handler touches is passed explicitly as a context
  structure, and "commit" is returning the updated context.
* Timestamps are abstract `Nat` ticks (`utc_time()` is the `now` argument).
-/

namespace ArgueWeb

/-- Row of the `UserPostInteraction` table (src/app.py lines 188-198):
per-(user, post) like/dislike/favorite flags and last-interaction time. -/
structure UserPostInteraction where
  user_id : Nat
  post_id : Nat
  liked : Bool
  disliked : Bool
  favorited : Bool
  interacted_at : Nat
deriving DecidableEq, Repr

/-- Row of the `UserCommentInteraction` table (src/app.py lines 201-210):
per-(user, comment) like/dislike flags and last-interaction time. -/
structure UserCommentInteraction where
  user_id : Nat
  comment_id : Nat
  liked : Bool
  disliked : Bool
  interacted_at : Nat
deriving DecidableEq, Repr

/-- The fields of `UserModel` (src/app.py lines 106-121) that the score
engine and the claims read: identity, the informational counters, and the
stored reputation `score` (column default `1.0`). -/
structure UserModel where
  id : Nat
  username : String
  post_count : Nat
  post_likes_received : Nat
  comment_likes_received : Nat
  score : ℚ
deriving DecidableEq, Repr

/-- Python's `x or 1.0` on a float column: `0.0` (and `None`, which the
column default `1.0` makes unreachable and which we fold into `0`) is falsy
and replaced by `1.0`; any other value is kept. -/
def pyOrOne (x : ℚ) : ℚ := if x = 0 then 1 else x

/-- Body of the first loop of `UserModel.update_score` (src/app.py lines
146-158): one `(interaction, user)` pair from the post-interaction join,
folded into the running `new_score`.  `selfScore` is `self.score` at entry
to the call (the Python method does not write `self.score` until the end),
and `iv.2` is the voting user's stored score `user.score`. -/
def postVoteStep (selfScore : ℚ) (new_score : ℚ)
    (iv : UserPostInteraction × ℚ) : ℚ :=
  if iv.1.liked then
    new_score + max (pyOrOne iv.2) 1 / (500 * (1 + pyOrOne selfScore / 10))
  else if iv.1.disliked then
    new_score - max (pyOrOne iv.2) 1 / (500 * (1 + pyOrOne selfScore / 20))
  else new_score

/-- Body of the second loop of `UserModel.update_score` (src/app.py lines
161-173): one pair from the comment-interaction join. -/
def commentVoteStep (selfScore : ℚ) (new_score : ℚ)
    (iv : UserCommentInteraction × ℚ) : ℚ :=
  if iv.1.liked then
    new_score + max (pyOrOne iv.2) 1 / (100 * (1 + pyOrOne selfScore / 5))
  else if iv.1.disliked then
    new_score - max (pyOrOne iv.2) 1 / (100 * (1 + pyOrOne selfScore / 10))
  else new_score

/-- Embeds `UserModel.update_score` (src/app.py lines 126-177).

The two database joins of the Python method deliver the list of
(interaction row, voting user's stored score) pairs for all interactions
on posts, respectively comments, authored by `u`; those lists are the
`post_interactions` / `comment_interactions` arguments here, in iteration
order.  The method starts from `new_score = 1.0`, folds over both lists
with `postVoteStep` / `commentVoteStep`, then stores and returns
`max(new_score, 1.0)`. -/
def UserModel.update_score (u : UserModel)
    (post_interactions : List (UserPostInteraction × ℚ))
    (comment_interactions : List (UserCommentInteraction × ℚ)) :
    UserModel × ℚ :=
  let base : ℚ := 1
  let afterPosts := post_interactions.foldl (postVoteStep u.score) base
  let new_score := comment_interactions.foldl (commentVoteStep u.score) afterPosts
  let final := max new_score 1
  ({u with score := final}, final)

/-- Post-vote rule of the reference algorithm of spec.md §4.4, written from
the spec's words (for comparison with `UserModel.update_score`): if liked
add `max(voter.score,1.0) / (500*(1+max(user.score,1.0)/10))`, if disliked
subtract `max(voter.score,1.0) / (500*(1+max(user.score,1.0)/20))`.
`userScore` is the target user's stored score at entry. -/
def specPostVoteStep (userScore : ℚ) (score : ℚ)
    (iv : UserPostInteraction × ℚ) : ℚ :=
  let score :=
    if iv.1.liked then
      score + max iv.2 1 / (500 * (1 + max userScore 1 / 10))
    else score
  if iv.1.disliked then
    score - max iv.2 1 / (500 * (1 + max userScore 1 / 20))
  else score

/-- Comment-vote rule of the reference algorithm, spec.md §4.4 step 3. -/
def specCommentVoteStep (userScore : ℚ) (score : ℚ)
    (iv : UserCommentInteraction × ℚ) : ℚ :=
  let score :=
    if iv.1.liked then
      score + max iv.2 1 / (100 * (1 + max userScore 1 / 5))
    else score
  if iv.1.disliked then
    score - max iv.2 1 / (100 * (1 + max userScore 1 / 10))
  else score

/-- The reference algorithm of spec.md §4.4 as a whole: seed `1.0`, fold
the post-vote rule then the comment-vote rule, floor at `1.0`. -/
def specRecompute (userScore : ℚ)
    (postVotes : List (UserPostInteraction × ℚ))
    (commentVotes : List (UserCommentInteraction × ℚ)) : ℚ :=
  let s1 := postVotes.foldl (specPostVoteStep userScore) 1
  let s2 := commentVotes.foldl (specCommentVoteStep userScore) s1
  max s2 1

/-- The slice of persisted state that one `post_interaction` request touches:
the (actor, post) `UserPostInteraction` row when it exists, the post's
denormalized counters, and the (actor, post) `UserPostFaction` row's faction
when that row exists. -/
structure PostInteractionCtx where
  interaction : Option UserPostInteraction
  like_count : Int
  dislike_count : Int
  favorite_count : Int
  faction_row : Option String
deriving DecidableEq, Repr

/-- Outcome of the `post_interaction` request handler.  `ok` carries the
response fields (`active`, `count`) and the committed state; the two error
constructors are the early `return {'error': ...}, 400` paths, which run
before `db.session.commit()`, so on them the persisted state is unchanged. -/
inductive PIOutcome where
  | ok (active : Bool) (count : Int) (ctx : PostInteractionCtx)
  | errorInvalidFaction
  | errorInvalidAction
deriving DecidableEq, Repr

/-- Embeds the `post_interaction` route handler (src/app.py lines 353-460).

It first gets or creates the `UserPostInteraction` row for (actor, post)
(new rows carry the column defaults `liked=disliked=favorited=False`), then
dispatches on `action`:
* `like` / `dislike`: mutually exclusive toggles maintaining the post's
  denormalized counts (lines 373-396);
* `favorite`: independent toggle (lines 397-405);
* `join_faction`: reads `faction` from the request body; a value outside
  `{pro, anti}` (or a missing one) returns 400 before commit; otherwise a
  same-faction row is deleted, a different-faction row is overwritten, and a
  missing row is created (lines 406-436);
* anything else returns `{'error': 'Invalid action'}, 400` (line 438).
On every non-error path `interaction.interacted_at` is set to `now` (line
440) and the session is committed; the response `count` is
`getattr(post, f'\x7baction\x7d_count', 0)`, which is `0` for
`join_faction`.  The score recomputation the handler triggers afterwards
(lines 443-448) is `UserModel.update_score`, modelled separately. -/
def post_interaction (actorId postId : Nat) (action : String)
    (factionArg : Option String) (now : Nat) (ctx : PostInteractionCtx) :
    PIOutcome :=
  let interaction :=
    ctx.interaction.getD ⟨actorId, postId, false, false, false, now⟩
  if action = "like" then
    if interaction.liked then
      .ok false (ctx.like_count - 1)
        {ctx with
          interaction := some {interaction with liked := false, interacted_at := now},
          like_count := ctx.like_count - 1}
    else
      if interaction.disliked then
        .ok true (ctx.like_count + 1)
          {ctx with
            interaction := some
              {interaction with liked := true, disliked := false, interacted_at := now},
            like_count := ctx.like_count + 1,
            dislike_count := ctx.dislike_count - 1}
      else
        .ok true (ctx.like_count + 1)
          {ctx with
            interaction := some {interaction with liked := true, interacted_at := now},
            like_count := ctx.like_count + 1}
  else if action = "dislike" then
    if interaction.disliked then
      .ok false (ctx.dislike_count - 1)
        {ctx with
          interaction := some {interaction with disliked := false, interacted_at := now},
          dislike_count := ctx.dislike_count - 1}
    else
      if interaction.liked then
        .ok true (ctx.dislike_count + 1)
          {ctx with
            interaction := some
              {interaction with disliked := true, liked := false, interacted_at := now},
            dislike_count := ctx.dislike_count + 1,
            like_count := ctx.like_count - 1}
      else
        .ok true (ctx.dislike_count + 1)
          {ctx with
            interaction := some {interaction with disliked := true, interacted_at := now},
            dislike_count := ctx.dislike_count + 1}
  else if action = "favorite" then
    if interaction.favorited then
      .ok false (ctx.favorite_count - 1)
        {ctx with
          interaction := some {interaction with favorited := false, interacted_at := now},
          favorite_count := ctx.favorite_count - 1}
    else
      .ok true (ctx.favorite_count + 1)
        {ctx with
          interaction := some {interaction with favorited := true, interacted_at := now},
          favorite_count := ctx.favorite_count + 1}
  else if action = "join_faction" then
    match factionArg with
    | none => .errorInvalidFaction
    | some faction =>
      if faction = "pro" ∨ faction = "anti" then
        match ctx.faction_row with
        | some g =>
          if g = faction then
            .ok false 0
              {ctx with
                interaction := some {interaction with interacted_at := now},
                faction_row := none}
          else
            .ok true 0
              {ctx with
                interaction := some {interaction with interacted_at := now},
                faction_row := some faction}
        | none =>
          .ok true 0
            {ctx with
              interaction := some {interaction with interacted_at := now},
              faction_row := some faction}
      else .errorInvalidFaction
  else .errorInvalidAction

/-- The slice of persisted state that one `comment_interaction` request
touches: the (actor, comment) `UserCommentInteraction` row when it exists
and the comment's denormalized counts. -/
structure CommentInteractionCtx where
  interaction : Option UserCommentInteraction
  like_count : Int
  dislike_count : Int
deriving DecidableEq, Repr

/-- Outcome of the `comment_interaction` request handler.  `ok` carries the
response fields and the committed state.  `unhandledException` records that
for an action outside `{like, dislike}` the handler falls through the
`if/elif` with the local variable `active` never assigned, commits (line
570), and then raises `UnboundLocalError` while building `response_data`
(line 581); the committed state — with the get-or-created row's
`interacted_at` refreshed — is carried along. -/
inductive CIOutcome where
  | ok (active : Bool) (count : Int) (ctx : CommentInteractionCtx)
  | unhandledException (ctx : CommentInteractionCtx)
deriving DecidableEq, Repr

/-- Embeds the `comment_interaction` route handler (src/app.py lines
524-589).  Like `post_interaction` it gets or creates the per-(actor,
comment) row and runs the mutually exclusive like/dislike toggles (lines
544-567), sets `interacted_at := now` and commits (lines 569-570) — but its
dispatch has no `else` branch, so any other action leaves `active` unbound
and the response construction raises. -/
def comment_interaction (actorId commentId : Nat) (action : String)
    (now : Nat) (ctx : CommentInteractionCtx) : CIOutcome :=
  let interaction :=
    ctx.interaction.getD ⟨actorId, commentId, false, false, now⟩
  let step : UserCommentInteraction × Int × Int × Option Bool :=
    if action = "like" then
      if interaction.liked then
        ({interaction with liked := false},
          ctx.like_count - 1, ctx.dislike_count, some false)
      else
        if interaction.disliked then
          ({interaction with liked := true, disliked := false},
            ctx.like_count + 1, ctx.dislike_count - 1, some true)
        else
          ({interaction with liked := true},
            ctx.like_count + 1, ctx.dislike_count, some true)
    else if action = "dislike" then
      if interaction.disliked then
        ({interaction with disliked := false},
          ctx.like_count, ctx.dislike_count - 1, some false)
      else
        if interaction.liked then
          ({interaction with disliked := true, liked := false},
            ctx.like_count - 1, ctx.dislike_count + 1, some true)
        else
          ({interaction with disliked := true},
            ctx.like_count, ctx.dislike_count + 1, some true)
    else (interaction, ctx.like_count, ctx.dislike_count, none)
  match step with
  | (i, lc, dc, activeVar) =>
    let committed : CommentInteractionCtx :=
      ⟨some {i with interacted_at := now}, lc, dc⟩
    match activeVar with
    | some active =>
      .ok active (if action = "like" then lc else dc) committed
    | none => .unhandledException committed

/-- Outcome of the `choose_faction` route handler. -/
inductive ChooseOutcome where
  | invalidFaction
  | alreadyChosen
  | created
deriving DecidableEq, Repr

/-- Embeds the `choose_faction` route handler (src/app.py lines 592-618).
`existing` is the faction of the (actor, post) `UserPostFaction` row when
one exists.  The handler first rejects a faction outside `{pro, anti}`,
then rejects a re-choice whenever a row already exists (whatever faction it
holds), and otherwise creates the row.  The returned pair is the outcome
together with the (actor, post) faction row after the request. -/
def choose_faction (faction : String) (existing : Option String) :
    ChooseOutcome × Option String :=
  if ¬(faction = "pro" ∨ faction = "anti") then
    (.invalidFaction, existing)
  else
    match existing with
    | some g => (.alreadyChosen, some g)
    | none => (.created, some faction)

/-- Outcome of submitting a comment through the `post` route handler. -/
inductive SubmitCommentOutcome where
  | emptyContent
  | notInFaction
  | created (faction : String)
deriving DecidableEq, Repr

/-- Embeds the comment-submission branch of the `post` route handler
(src/app.py lines 629-678): empty content is rejected; a comment tagged
`pro` or `anti` requires a `UserPostFaction` row for (actor, post) with
that exact faction (the `filter_by` at lines 657-661 includes the faction)
and otherwise fails with the not-in-faction flash and no comment is
created; any other faction value (in particular `neutral`, the form
default) passes the gate and the comment is created.  `membership` is the
faction of the actor's `UserPostFaction` row for this post, when one
exists. -/
def submit_comment (content : String) (faction : String)
    (membership : Option String) : SubmitCommentOutcome :=
  if content = "" then .emptyContent
  else if faction = "pro" ∨ faction = "anti" then
    if membership = some faction then .created faction
    else .notInFaction
  else .created faction

/-! ## Reachable states of the score engine -/

/-- States of a `UserModel` row reachable in the application: created by
registration with the column defaults (counters `0`, `score = 1.0`,
src/app.py lines 1104-1121), and rewritten only by
`UserModel.update_score`. -/
inductive UserReachable : UserModel → Prop where
  | register (id : Nat) (name : String) :
      UserReachable ⟨id, name, 0, 0, 0, 1⟩
  | recompute (u : UserModel) (pv : List (UserPostInteraction × ℚ))
      (cv : List (UserCommentInteraction × ℚ)) :
      UserReachable u → UserReachable (u.update_score pv cv).1

/-! ## Helper lemmas -/

/-- Two folds agree when the step functions agree on the list's
elements. -/
lemma foldl_congr_mem {α β : Type} (f g : β → α → β) (l : List α)
    (h : ∀ b : β, ∀ x ∈ l, f b x = g b x) (b : β) :
    l.foldl f b = l.foldl g b := by
  induction l generalizing b with
  | nil => rfl
  | cons x xs ih =>
    simp only [List.foldl_cons]
    rw [h b x (List.mem_cons_self x xs)]
    exact ih (fun c y hy => h c y (List.mem_cons_of_mem x hy)) _

/-- On a mutually exclusive pair of flags, the code's `if/elif` and the
spec's two independent rules compute the same update. -/
lemma ifStep_eq (s : ℚ) (lk dk : Bool) (a b : ℚ)
    (h : ¬(lk = true ∧ dk = true)) :
    (if lk then s + a else if dk then s - b else s) =
      (if dk then (if lk then s + a else s) - b
       else (if lk then s + a else s)) := by
  cases lk <;> cases dk <;> simp_all

/-- `max (pyOrOne v) 1` (the code's voter weight) equals `max v 1` (the
spec's): Python's `0.0 or 1.0` falsy case is absorbed by the outer max. -/
lemma max_pyOrOne_one (v : ℚ) : max (pyOrOne v) 1 = max v 1 := by
  unfold pyOrOne
  split
  · next h => rw [h]; simp
  · rfl

-- ---------------------------------------------------------------------
-- C1
-- ---------------------------------------------------------------------

/-- C1: for a user whose stored score at entry satisfies the `score ≥ 1.0`
invariant, and interaction rows satisfying the liked/disliked mutual
exclusion invariant, `UserModel.update_score` returns exactly the value of
the spec's reference algorithm `specRecompute` evaluated at the entry
score. -/
theorem update_score_matches_spec (u : UserModel)
    (pv : List (UserPostInteraction × ℚ))
    (cv : List (UserCommentInteraction × ℚ))
    (hu : 1 ≤ u.score)
    (hp : ∀ iv ∈ pv, ¬(iv.1.liked = true ∧ iv.1.disliked = true))
    (hc : ∀ iv ∈ cv, ¬(iv.1.liked = true ∧ iv.1.disliked = true)) :
    (u.update_score pv cv).2 = specRecompute u.score pv cv := by
  have hne : u.score ≠ 0 := by positivity
  have h0 : pyOrOne u.score = u.score := by
    unfold pyOrOne
    exact if_neg hne
  have h1 : max u.score 1 = u.score := max_eq_left hu
  have hPstep : ∀ b : ℚ, ∀ iv ∈ pv,
      postVoteStep u.score b iv = specPostVoteStep u.score b iv := by
    intro b iv hiv
    unfold postVoteStep specPostVoteStep
    rw [h0, h1, max_pyOrOne_one]
    exact ifStep_eq b iv.1.liked iv.1.disliked _ _ (hp iv hiv)
  have hCstep : ∀ b : ℚ, ∀ iv ∈ cv,
      commentVoteStep u.score b iv = specCommentVoteStep u.score b iv := by
    intro b iv hiv
    unfold commentVoteStep specCommentVoteStep
    rw [h0, h1, max_pyOrOne_one]
    exact ifStep_eq b iv.1.liked iv.1.disliked _ _ (hc iv hiv)
  simp only [UserModel.update_score, specRecompute]
  rw [foldl_congr_mem (postVoteStep u.score) (specPostVoteStep u.score) pv hPstep,
    foldl_congr_mem (commentVoteStep u.score) (specCommentVoteStep u.score) cv hCstep]

/-- Witness for C1 at a concrete input: a voter with score `1.0` liking one
post of a user with stored score `1.0`. -/
theorem update_score_matches_spec_witness :
    (1 : ℚ) ≤ (⟨1, "alice", 0, 0, 0, 1⟩ : UserModel).score ∧
    (UserModel.update_score ⟨1, "alice", 0, 0, 0, 1⟩
        [(⟨2, 1, true, false, false, 0⟩, 1)] []).2 =
      specRecompute (⟨1, "alice", 0, 0, 0, 1⟩ : UserModel).score
        [(⟨2, 1, true, false, false, 0⟩, 1)] [] :=
  ⟨by norm_num,
    update_score_matches_spec ⟨1, "alice", 0, 0, 0, 1⟩
      [(⟨2, 1, true, false, false, 0⟩, 1)] [] (by norm_num)
      (by simp) (by simp)⟩

-- ---------------------------------------------------------------------
-- C2
-- ---------------------------------------------------------------------

/-- C2: every reachable user state has stored score `≥ 1.0` — it is `1.0`
at creation, and every `update_score` call stores `max(new_score, 1.0)`,
so in particular any recompute over any interaction lists (e.g. any
sequence of dislikes) yields a score `≥ 1.0`. -/
theorem score_invariant_ge_one (u : UserModel) (h : UserReachable u) :
    1 ≤ u.score := by
  induction h with
  | register id name => norm_num
  | recompute v pv cv hv ih =>
    simp only [UserModel.update_score]
    exact le_max_right _ _

/-- Witness for C2: a freshly registered user, and a user recomputed over a
store holding only one dislike, both satisfy the floor. -/
theorem score_invariant_ge_one_witness :
    1 ≤ ((⟨7, "carol", 0, 0, 0, 1⟩ : UserModel).update_score
      [(⟨2, 1, false, true, false, 0⟩, 3)] []).1.score :=
  score_invariant_ge_one _
    (UserReachable.recompute _ _ _ (UserReachable.register 7 "carol"))

-- ---------------------------------------------------------------------
-- C3
-- ---------------------------------------------------------------------

/-- Counterexample to C3 as stated: one voter of score `2.0` has liked the
only post of a user with stored score `1.0`.  The first `update_score`
call returns `276/275` and stores it; the immediately following call, with
no intervening interaction change, reads the new stored score in its
denominators and returns `3037/3026 ≠ 276/275`. -/
theorem recompute_second_call_differs :
    ((UserModel.update_score ⟨1, "bob", 0, 0, 0, 1⟩
          [(⟨2, 1, true, false, false, 0⟩, 2)] []).1.update_score
        [(⟨2, 1, true, false, false, 0⟩, 2)] []).2 ≠
      (UserModel.update_score ⟨1, "bob", 0, 0, 0, 1⟩
        [(⟨2, 1, true, false, false, 0⟩, 2)] []).2 := by
  simp only [UserModel.update_score, postVoteStep, commentVoteStep,
    List.foldl_cons, List.foldl_nil, pyOrOne]
  norm_num [max_def]

/-- C3 as amended: `update_score` is a pure function of the stored score at
entry and the interaction lists — two users with the same stored score
receive the same recomputed value over the same interaction store,
whatever their other fields or history (no hidden state). -/
theorem recompute_function_of_score_and_store (u v : UserModel)
    (pv : List (UserPostInteraction × ℚ))
    (cv : List (UserCommentInteraction × ℚ))
    (h : u.score = v.score) :
    (u.update_score pv cv).2 = (v.update_score pv cv).2 := by
  simp only [UserModel.update_score, h]

/-- Witness for the amended C3: two distinct user rows with equal stored
score get the same value from the same store. -/
theorem recompute_function_of_score_and_store_witness :
    ((⟨1, "dora", 0, 0, 0, 1⟩ : UserModel).score =
      (⟨9, "eve", 5, 2, 4, 1⟩ : UserModel).score) ∧
    ((⟨1, "dora", 0, 0, 0, 1⟩ : UserModel).update_score
        [(⟨2, 1, true, false, false, 0⟩, 2)] []).2 =
      ((⟨9, "eve", 5, 2, 4, 1⟩ : UserModel).update_score
        [(⟨2, 1, true, false, false, 0⟩, 2)] []).2 :=
  ⟨rfl, recompute_function_of_score_and_store _ _ _ _ rfl⟩

-- ---------------------------------------------------------------------
-- C4
-- ---------------------------------------------------------------------

/-- The liked/disliked mutual-exclusion invariant on an optional
post-interaction row (`true` when no row exists yet). -/
def flagsOkP : Option UserPostInteraction → Bool
  | none => true
  | some r => !(r.liked && r.disliked)

/-- The liked/disliked mutual-exclusion invariant on an optional
comment-interaction row. -/
def flagsOkC : Option UserCommentInteraction → Bool
  | none => true
  | some r => !(r.liked && r.disliked)

/-- One `post_interaction` request as a state transformer: the committed
state on success, the unchanged persisted state on the 400 paths. -/
def stepPost (actorId postId now : Nat) (c : PostInteractionCtx)
    (af : String × Option String) : PostInteractionCtx :=
  match post_interaction actorId postId af.1 af.2 now c with
  | .ok _ _ c2 => c2
  | .errorInvalidFaction => c
  | .errorInvalidAction => c

/-- One `comment_interaction` request as a state transformer; on the
unhandled-exception path the commit at line 570 has already happened, so
that committed state is kept. -/
def stepComment (actorId commentId now : Nat) (c : CommentInteractionCtx)
    (act : String) : CommentInteractionCtx :=
  match comment_interaction actorId commentId act now c with
  | .ok _ _ c2 => c2
  | .unhandledException c2 => c2

/-- A sequence of `post_interaction` requests by one actor on one post. -/
def runPostActions (actorId postId now : Nat)
    (acts : List (String × Option String)) (c : PostInteractionCtx) :
    PostInteractionCtx :=
  acts.foldl (stepPost actorId postId now) c

/-- A sequence of `comment_interaction` requests by one actor on one
comment. -/
def runCommentActions (actorId commentId now : Nat) (acts : List String)
    (c : CommentInteractionCtx) : CommentInteractionCtx :=
  acts.foldl (stepComment actorId commentId now) c

/-- Any single `post_interaction` request preserves the liked/disliked
mutual exclusion of the (actor, post) row. -/
lemma stepPost_preserves_flags (actorId postId now : Nat)
    (af : String × Option String) (c : PostInteractionCtx)
    (h : flagsOkP c.interaction = true) :
    flagsOkP ((stepPost actorId postId now c af).interaction) = true := by
  rcases c with ⟨oi, lc, dc, fc, fr⟩
  rcases af with ⟨act, farg⟩
  by_cases h1 : act = "like"
  · subst h1
    rcases oi with _ | ⟨ru, rp, rl, rd, rf, rt⟩
    · simp [stepPost, post_interaction, flagsOkP]
    · cases rl <;> cases rd <;> simp_all [stepPost, post_interaction, flagsOkP]
  · by_cases h2 : act = "dislike"
    · subst h2
      rcases oi with _ | ⟨ru, rp, rl, rd, rf, rt⟩
      · simp [stepPost, post_interaction, flagsOkP]
      · cases rl <;> cases rd <;> simp_all [stepPost, post_interaction, flagsOkP]
    · by_cases h3 : act = "favorite"
      · subst h3
        rcases oi with _ | ⟨ru, rp, rl, rd, rf, rt⟩
        · simp [stepPost, post_interaction, flagsOkP]
        · cases rl <;> cases rd <;> cases rf <;>
            simp_all [stepPost, post_interaction, flagsOkP]
      · by_cases h4 : act = "join_faction"
        · subst h4
          rcases farg with _ | f
          · simp_all [stepPost, post_interaction, flagsOkP]
          · by_cases h5 : f = "pro" ∨ f = "anti"
            · rcases fr with _ | g
              · rcases oi with _ | ⟨ru, rp, rl, rd, rf, rt⟩
                · simp_all [stepPost, post_interaction, flagsOkP]
                · cases rl <;> cases rd <;>
                    simp_all [stepPost, post_interaction, flagsOkP]
              · by_cases h6 : g = f <;>
                  · rcases oi with _ | ⟨ru, rp, rl, rd, rf, rt⟩
                    · simp_all [stepPost, post_interaction, flagsOkP]
                    · cases rl <;> cases rd <;>
                        simp_all [stepPost, post_interaction, flagsOkP]
            · simp_all [stepPost, post_interaction, flagsOkP]
        · simp_all [stepPost, post_interaction, flagsOkP]

/-- Any single `comment_interaction` request preserves the liked/disliked
mutual exclusion of the (actor, comment) row. -/
lemma stepComment_preserves_flags (actorId commentId now : Nat)
    (act : String) (c : CommentInteractionCtx)
    (h : flagsOkC c.interaction = true) :
    flagsOkC ((stepComment actorId commentId now c act).interaction) = true := by
  rcases c with ⟨oi, lc, dc⟩
  by_cases h1 : act = "like"
  · subst h1
    rcases oi with _ | ⟨ru, rc, rl, rd, rt⟩
    · simp [stepComment, comment_interaction, flagsOkC]
    · cases rl <;> cases rd <;>
        simp_all [stepComment, comment_interaction, flagsOkC]
  · by_cases h2 : act = "dislike"
    · subst h2
      rcases oi with _ | ⟨ru, rc, rl, rd, rt⟩
      · simp [stepComment, comment_interaction, flagsOkC]
      · cases rl <;> cases rd <;>
          simp_all [stepComment, comment_interaction, flagsOkC]
    · rcases oi with _ | ⟨ru, rc, rl, rd, rt⟩
      · simp_all [stepComment, comment_interaction, flagsOkC]
      · cases rl <;> cases rd <;>
          simp_all [stepComment, comment_interaction, flagsOkC]

/-- The invariant propagates through any request sequence on one post. -/
lemma runPostActions_preserves_flags (actorId postId now : Nat)
    (acts : List (String × Option String)) :
    ∀ c : PostInteractionCtx, flagsOkP c.interaction = true →
      flagsOkP ((runPostActions actorId postId now acts c).interaction) = true := by
  induction acts with
  | nil => intro c h; exact h
  | cons af rest ih =>
    intro c h
    exact ih _ (stepPost_preserves_flags actorId postId now af c h)

/-- The invariant propagates through any request sequence on one
comment. -/
lemma runCommentActions_preserves_flags (actorId commentId now : Nat)
    (acts : List String) :
    ∀ c : CommentInteractionCtx, flagsOkC c.interaction = true →
      flagsOkC ((runCommentActions actorId commentId now acts c).interaction) = true := by
  induction acts with
  | nil => intro c h; exact h
  | cons act rest ih =>
    intro c h
    exact ih _ (stepComment_preserves_flags actorId commentId now act c h)

/-- C4: starting from a freshly created interaction record
(`liked = disliked = false`), no sequence of `post_interaction` requests
(any action strings, any faction arguments) or `comment_interaction`
requests ever produces a row with `liked` and `disliked` simultaneously
true. -/
theorem liked_disliked_never_both (actorId postId commentId now t0 : Nat)
    (acts : List (String × Option String)) (cacts : List String)
    (lc dc fc clc cdc : Int) (fr : Option String) :
    flagsOkP ((runPostActions actorId postId now acts
        ⟨some ⟨actorId, postId, false, false, false, t0⟩, lc, dc, fc, fr⟩).interaction)
      = true ∧
    flagsOkC ((runCommentActions actorId commentId now cacts
        ⟨some ⟨actorId, commentId, false, false, t0⟩, clc, cdc⟩).interaction)
      = true :=
  ⟨runPostActions_preserves_flags actorId postId now acts _ rfl,
    runCommentActions_preserves_flags actorId commentId now cacts _ rfl⟩

-- ---------------------------------------------------------------------
-- C5
-- ---------------------------------------------------------------------

/-- C5: the `like`/`dislike` transitions on an existing record, for posts
and for comments.  `like` while liked clears the flag, decrements the
target's like count and reports `active = false`; `like` while not liked
sets the flag, increments the like count, clears `disliked` and decrements
the dislike count when `disliked` was set, and reports `active = true`;
symmetrically for `dislike` — in particular `dislike` while liked leaves
`liked = false, disliked = true` with the like count decremented and the
dislike count incremented. -/
theorem like_dislike_transitions (actorId postId commentId now : Nat)
    (r : UserPostInteraction) (lc dc fc : Int) (fr : Option String)
    (cr : UserCommentInteraction) (clc cdc : Int) :
    (r.liked = true →
      post_interaction actorId postId "like" none now ⟨some r, lc, dc, fc, fr⟩ =
        .ok false (lc - 1)
          ⟨some {r with liked := false, interacted_at := now}, lc - 1, dc, fc, fr⟩) ∧
    (r.liked = false → r.disliked = true →
      post_interaction actorId postId "like" none now ⟨some r, lc, dc, fc, fr⟩ =
        .ok true (lc + 1)
          ⟨some {r with liked := true, disliked := false, interacted_at := now},
            lc + 1, dc - 1, fc, fr⟩) ∧
    (r.liked = false → r.disliked = false →
      post_interaction actorId postId "like" none now ⟨some r, lc, dc, fc, fr⟩ =
        .ok true (lc + 1)
          ⟨some {r with liked := true, interacted_at := now}, lc + 1, dc, fc, fr⟩) ∧
    (r.disliked = true →
      post_interaction actorId postId "dislike" none now ⟨some r, lc, dc, fc, fr⟩ =
        .ok false (dc - 1)
          ⟨some {r with disliked := false, interacted_at := now}, lc, dc - 1, fc, fr⟩) ∧
    (r.disliked = false → r.liked = true →
      post_interaction actorId postId "dislike" none now ⟨some r, lc, dc, fc, fr⟩ =
        .ok true (dc + 1)
          ⟨some {r with disliked := true, liked := false, interacted_at := now},
            lc - 1, dc + 1, fc, fr⟩) ∧
    (r.disliked = false → r.liked = false →
      post_interaction actorId postId "dislike" none now ⟨some r, lc, dc, fc, fr⟩ =
        .ok true (dc + 1)
          ⟨some {r with disliked := true, interacted_at := now}, lc, dc + 1, fc, fr⟩) ∧
    (cr.liked = true →
      comment_interaction actorId commentId "like" now ⟨some cr, clc, cdc⟩ =
        .ok false (clc - 1)
          ⟨some {cr with liked := false, interacted_at := now}, clc - 1, cdc⟩) ∧
    (cr.liked = false → cr.disliked = true →
      comment_interaction actorId commentId "like" now ⟨some cr, clc, cdc⟩ =
        .ok true (clc + 1)
          ⟨some {cr with liked := true, disliked := false, interacted_at := now},
            clc + 1, cdc - 1⟩) ∧
    (cr.liked = false → cr.disliked = false →
      comment_interaction actorId commentId "like" now ⟨some cr, clc, cdc⟩ =
        .ok true (clc + 1)
          ⟨some {cr with liked := true, interacted_at := now}, clc + 1, cdc⟩) ∧
    (cr.disliked = true →
      comment_interaction actorId commentId "dislike" now ⟨some cr, clc, cdc⟩ =
        .ok false (cdc - 1)
          ⟨some {cr with disliked := false, interacted_at := now}, clc, cdc - 1⟩) ∧
    (cr.disliked = false → cr.liked = true →
      comment_interaction actorId commentId "dislike" now ⟨some cr, clc, cdc⟩ =
        .ok true (cdc + 1)
          ⟨some {cr with disliked := true, liked := false, interacted_at := now},
            clc - 1, cdc + 1⟩) ∧
    (cr.disliked = false → cr.liked = false →
      comment_interaction actorId commentId "dislike" now ⟨some cr, clc, cdc⟩ =
        .ok true (cdc + 1)
          ⟨some {cr with disliked := true, interacted_at := now}, clc, cdc + 1⟩) := by
  refine ⟨fun hl => ?_, fun hl hd => ?_, fun hl hd => ?_, fun hd => ?_,
    fun hd hl => ?_, fun hd hl => ?_, fun hl => ?_, fun hl hd => ?_,
    fun hl hd => ?_, fun hd => ?_, fun hd hl => ?_, fun hd hl => ?_⟩ <;>
      simp [post_interaction, comment_interaction, *]

/-- Witness for C5: a `dislike` arriving while the post record is liked
flips the flags and moves one unit from `like_count` to `dislike_count`. -/
theorem like_dislike_transitions_witness :
    (⟨1, 1, true, false, false, 0⟩ : UserPostInteraction).disliked = false ∧
    (⟨1, 1, true, false, false, 0⟩ : UserPostInteraction).liked = true ∧
    post_interaction 1 1 "dislike" none 5
        ⟨some ⟨1, 1, true, false, false, 0⟩, 3, 0, 0, none⟩ =
      .ok true 1 ⟨some ⟨1, 1, false, true, false, 5⟩, 2, 1, 0, none⟩ :=
  ⟨rfl, rfl,
    (like_dislike_transitions 1 1 1 5 ⟨1, 1, true, false, false, 0⟩ 3 0 0 none
      ⟨1, 1, false, false, 0⟩ 0 0).2.2.2.2.1 rfl rfl⟩

-- ---------------------------------------------------------------------
-- C6
-- ---------------------------------------------------------------------

/-- C6: on the choose-once path with a valid faction, an existing
`UserPostFaction` row for (actor, post) — whatever faction it holds —
makes `choose_faction` fail as already-chosen with the stored row
unchanged; with no existing row the row is created with the given
faction. -/
theorem choose_faction_once (f : String) (existing : Option String)
    (hf : f = "pro" ∨ f = "anti") :
    (∀ g, existing = some g →
      choose_faction f existing = (.alreadyChosen, some g)) ∧
    (existing = none → choose_faction f existing = (.created, some f)) := by
  have hcond : ¬¬(f = "pro" ∨ f = "anti") := not_not_intro hf
  refine ⟨fun g hg => ?_, fun hn => ?_⟩
  · subst hg
    unfold choose_faction
    rw [if_neg hcond]
  · subst hn
    unfold choose_faction
    rw [if_neg hcond]

/-- Witness for C6: choosing `pro` when an `anti` row exists fails and
keeps the `anti` row; choosing `pro` with no row creates a `pro` row. -/
theorem choose_faction_once_witness :
    (("pro" : String) = "pro" ∨ ("pro" : String) = "anti") ∧
    choose_faction "pro" (some "anti") = (.alreadyChosen, some "anti") ∧
    choose_faction "pro" none = (.created, some "pro") :=
  ⟨Or.inl rfl,
    (choose_faction_once "pro" (some "anti") (Or.inl rfl)).1 "anti" rfl,
    (choose_faction_once "pro" none (Or.inl rfl)).2 rfl⟩

-- ---------------------------------------------------------------------
-- C7
-- ---------------------------------------------------------------------

/-- C7: the toggle path (`join_faction` action of `post_interaction`).
With a valid faction: an existing row with the same faction is deleted and
`active = false` is reported; an existing row with a different faction is
overwritten with the new faction and `active = true`; a missing row is
created and `active = true`.  A faction outside `{pro, anti}` (or a
missing one) is rejected with the invalid-faction 400 before commit, so
no row is touched. -/
theorem join_faction_toggle (actorId postId now : Nat)
    (ctx : PostInteractionCtx) (f : String) :
    ((f = "pro" ∨ f = "anti") →
      (ctx.faction_row = some f →
        post_interaction actorId postId "join_faction" (some f) now ctx =
          .ok false 0
            {ctx with
              interaction := some
                {ctx.interaction.getD ⟨actorId, postId, false, false, false, now⟩ with
                  interacted_at := now},
              faction_row := none}) ∧
      (∀ g, ctx.faction_row = some g → g ≠ f →
        post_interaction actorId postId "join_faction" (some f) now ctx =
          .ok true 0
            {ctx with
              interaction := some
                {ctx.interaction.getD ⟨actorId, postId, false, false, false, now⟩ with
                  interacted_at := now},
              faction_row := some f}) ∧
      (ctx.faction_row = none →
        post_interaction actorId postId "join_faction" (some f) now ctx =
          .ok true 0
            {ctx with
              interaction := some
                {ctx.interaction.getD ⟨actorId, postId, false, false, false, now⟩ with
                  interacted_at := now},
              faction_row := some f})) ∧
    (f ≠ "pro" → f ≠ "anti" →
      post_interaction actorId postId "join_faction" (some f) now ctx =
        .errorInvalidFaction) ∧
    (post_interaction actorId postId "join_faction" none now ctx =
      .errorInvalidFaction) := by
  rcases ctx with ⟨oi, lc, dc, fc, fr⟩
  refine ⟨fun hf => ⟨fun hrow => ?_, fun g hrow hne => ?_, fun hrow => ?_⟩,
    fun h1 h2 => ?_, ?_⟩ <;>
      simp_all [post_interaction]

/-- Witness for C7: with an existing `pro` row, `join_faction pro` deletes
the row (leave), and `join_faction anti` overwrites it (switch sides). -/
theorem join_faction_toggle_witness :
    (("pro" : String) = "pro" ∨ ("pro" : String) = "anti") ∧
    post_interaction 1 2 "join_faction" (some "pro") 7
        ⟨some ⟨1, 2, false, false, false, 3⟩, 0, 0, 0, some "pro"⟩ =
      .ok false 0 ⟨some ⟨1, 2, false, false, false, 7⟩, 0, 0, 0, none⟩ ∧
    post_interaction 1 2 "join_faction" (some "anti") 7
        ⟨some ⟨1, 2, false, false, false, 3⟩, 0, 0, 0, some "pro"⟩ =
      .ok true 0 ⟨some ⟨1, 2, false, false, false, 7⟩, 0, 0, 0, some "anti"⟩ :=
  ⟨Or.inl rfl,
    ((join_faction_toggle 1 2 7
        ⟨some ⟨1, 2, false, false, false, 3⟩, 0, 0, 0, some "pro"⟩ "pro").1
      (Or.inl rfl)).1 rfl,
    (((join_faction_toggle 1 2 7
        ⟨some ⟨1, 2, false, false, false, 3⟩, 0, 0, 0, some "pro"⟩ "anti").1
      (Or.inr rfl)).2.1) "pro" rfl (by decide)⟩

-- ---------------------------------------------------------------------
-- C8
-- ---------------------------------------------------------------------

/-- C8: the faction gate on comment submission.  With nonempty content, a
comment tagged `pro` or `anti` is created exactly when a `UserPostFaction`
row for (actor, post) with that same faction exists, and otherwise fails
as not-in-faction with no comment created; a `neutral` comment needs no
membership. -/
theorem comment_faction_gate (content faction : String)
    (membership : Option String) (hc : content ≠ "") :
    ((faction = "pro" ∨ faction = "anti") →
      (membership = some faction →
        submit_comment content faction membership = .created faction) ∧
      (membership ≠ some faction →
        submit_comment content faction membership = .notInFaction)) ∧
    (faction = "neutral" →
      submit_comment content faction membership = .created faction) := by
  refine ⟨fun hf => ⟨fun hm => ?_, fun hm => ?_⟩, fun hn => ?_⟩ <;>
    simp_all [submit_comment]

/-- Witness for C8: a `pro` comment by a user with no faction row fails
the gate; the same comment as `neutral` is created. -/
theorem comment_faction_gate_witness :
    ("hi" : String) ≠ "" ∧
    (none : Option String) ≠ some "pro" ∧
    submit_comment "hi" "pro" none = .notInFaction ∧
    submit_comment "hi" "neutral" none = .created "neutral" :=
  ⟨by decide, by decide,
    ((comment_faction_gate "hi" "pro" none (by decide)).1 (Or.inl rfl)).2
      (by decide),
    (comment_faction_gate "hi" "neutral" none (by decide)).2 rfl⟩

-- ---------------------------------------------------------------------
-- C9
-- ---------------------------------------------------------------------

/-- C9 (bug in the code): for an action outside `{like, dislike}` on an
existing comment — here `favorite` by a fresh actor — `comment_interaction`
does not return a recoverable error: its dispatch has no `else` branch, so
it commits the get-or-created all-false row and then raises an uncaught
`UnboundLocalError` on the never-assigned `active`, where the parallel
`post_interaction` handler returns `{'error': 'Invalid action'}, 400`. -/
theorem comment_interaction_unknown_action_crashes :
    comment_interaction 1 1 "favorite" 5 ⟨none, 4, 2⟩ =
      .unhandledException ⟨some ⟨1, 1, false, false, 5⟩, 4, 2⟩ := rfl

-- ---------------------------------------------------------------------
-- C10
-- ---------------------------------------------------------------------

/-- On a committed outcome (`ok`), checks that the stored
`UserPostInteraction` row exists with `interacted_at` set to the commit
time, and — when no row existed before the call (`pre = none`) — that it
is the get-or-created row for (actor, post).  Error outcomes commit
nothing and pass vacuously. -/
def commitKeepsRow (actorId postId now : Nat)
    (pre : Option UserPostInteraction) : PIOutcome → Bool
  | .ok _ _ c2 =>
    match c2.interaction with
    | some r =>
      decide (r.interacted_at = now) &&
        (match pre with
         | some _ => true
         | none => decide (r.user_id = actorId) && decide (r.post_id = postId))
    | none => false
  | .errorInvalidFaction => true
  | .errorInvalidAction => true

/-- Every committing `post_interaction` invocation leaves the (actor,
post) interaction row present with `interacted_at` refreshed. -/
lemma post_interaction_commitKeepsRow (actorId postId now : Nat)
    (act : String) (farg : Option String) (ctx : PostInteractionCtx) :
    commitKeepsRow actorId postId now ctx.interaction
      (post_interaction actorId postId act farg now ctx) = true := by
  rcases ctx with ⟨oi, lc, dc, fc, fr⟩
  by_cases h1 : act = "like"
  · subst h1
    rcases oi with _ | ⟨ru, rp, rl, rd, rf, rt⟩
    · simp [commitKeepsRow, post_interaction]
    · cases rl <;> cases rd <;> simp_all [commitKeepsRow, post_interaction]
  · by_cases h2 : act = "dislike"
    · subst h2
      rcases oi with _ | ⟨ru, rp, rl, rd, rf, rt⟩
      · simp [commitKeepsRow, post_interaction]
      · cases rl <;> cases rd <;> simp_all [commitKeepsRow, post_interaction]
    · by_cases h3 : act = "favorite"
      · subst h3
        rcases oi with _ | ⟨ru, rp, rl, rd, rf, rt⟩
        · simp [commitKeepsRow, post_interaction]
        · cases rl <;> cases rd <;> cases rf <;>
            simp_all [commitKeepsRow, post_interaction]
      · by_cases h4 : act = "join_faction"
        · subst h4
          rcases farg with _ | f
          · simp_all [commitKeepsRow, post_interaction]
          · by_cases h5 : f = "pro" ∨ f = "anti"
            · rcases fr with _ | g
              · rcases oi with _ | ⟨ru, rp, rl, rd, rf, rt⟩ <;>
                  simp_all [commitKeepsRow, post_interaction]
              · by_cases h6 : g = f <;>
                  · rcases oi with _ | ⟨ru, rp, rl, rd, rf, rt⟩ <;>
                      simp_all [commitKeepsRow, post_interaction]
            · simp_all [commitKeepsRow, post_interaction]
        · simp_all [commitKeepsRow, post_interaction]

/-- C10: every `post_interaction` invocation get-or-creates the (actor,
post) `UserPostInteraction` row and refreshes its `interacted_at` before
committing — checked by `commitKeepsRow` over every action and state —
and in particular a `join_faction` call with a valid faction by an actor
who has never interacted with the post persists a brand-new all-false
interaction record as a side effect. -/
theorem post_interaction_touches_interaction_row (actorId postId now : Nat)
    (act : String) (farg : Option String) (ctx : PostInteractionCtx) :
    (commitKeepsRow actorId postId now ctx.interaction
      (post_interaction actorId postId act farg now ctx) = true) ∧
    (∀ f, (f = "pro" ∨ f = "anti") → ctx.interaction = none →
      ctx.faction_row = none →
      post_interaction actorId postId "join_faction" (some f) now ctx =
        .ok true 0
          ⟨some ⟨actorId, postId, false, false, false, now⟩, ctx.like_count,
            ctx.dislike_count, ctx.favorite_count, some f⟩) := by
  refine ⟨post_interaction_commitKeepsRow actorId postId now act farg ctx, ?_⟩
  rcases ctx with ⟨oi, lc, dc, fc, fr⟩
  intro f hf hoi hfr
  simp_all [post_interaction]

/-- Witness for C10: a `join_faction pro` call by a fresh actor creates
and commits the all-false interaction record alongside the faction row. -/
theorem post_interaction_touches_interaction_row_witness :
    (("pro" : String) = "pro" ∨ ("pro" : String) = "anti") ∧
    post_interaction 3 4 "join_faction" (some "pro") 9 ⟨none, 1, 2, 3, none⟩ =
      .ok true 0 ⟨some ⟨3, 4, false, false, false, 9⟩, 1, 2, 3, some "pro"⟩ :=
  ⟨Or.inl rfl,
    (post_interaction_touches_interaction_row 3 4 9 "join_faction"
      (some "pro") ⟨none, 1, 2, 3, none⟩).2 "pro" (Or.inl rfl) rfl rfl⟩

end ArgueWeb
